import Mathlib

/-!
Verification of the NOXTERM session lifecycle engine (NON-OS/noxterm).

This file gives a shallow embedding of the parts of `nox-backend` that the
specification's claims are about: the durable session store
(`src/db/sessions.rs`), the database cleanup routines (`src/db/cleanup.rs`),
the bucketed rate limiter (`src/db/rate_limits.rs`), the container lifecycle
manager (`src/lifecycle.rs`) and the HTTP/WebSocket handlers in
`src/noxterm.rs`.  SQL statements are modelled as pure functions on an
association list of rows, timestamps are natural numbers (seconds), and the
database clock `NOW()` is passed explicitly.
-/

namespace Noxterm

/-- Session status enum from `db/sessions.rs` (`SessionStatus`).  The
`status` column is a string constrained by the application to these four
values (`created`, `running`, `disconnected`, `terminated`). -/
inductive SessionStatus where
  | created
  | running
  | disconnected
  | terminated
deriving DecidableEq, Repr

/-- Session row from `db/sessions.rs` (`DbSession`).  The `resource_limits`
and `metadata` JSON columns are never read by the operations under study and
are omitted; timestamps are modelled as seconds (`Nat`). -/
structure DbSession where
  user_id : String
  status : SessionStatus
  container_id : Option String
  container_name : Option String
  container_image : String
  created_at : Nat
  last_activity : Nat
  disconnected_at : Option Nat
  expires_at : Option Nat
deriving DecidableEq, Repr

/-- The `sessions` table: rows keyed by the session id (a UUID, modelled as
`Nat`). -/
abbrev Store := List (Nat × DbSession)

/-- Row lookup by primary key (`SELECT * FROM sessions WHERE id = $1`,
`get_by_id` in `db/sessions.rs`). -/
def db_get (db : Store) (id : Nat) : Option DbSession :=
  (List.find? (fun p => p.1 == id) db).map (fun p => p.2)

/-- Shape of every `UPDATE sessions SET ... WHERE id = $n` statement in
`db/sessions.rs`: all rows with the given primary key are rewritten by `f`,
all other rows are untouched. -/
def db_update (db : Store) (id : Nat) (f : DbSession → DbSession) : Store :=
  List.map (fun p => if p.1 = id then (p.1, f p.2) else p) db

/-- Store operation `mark_disconnected` (`db/sessions.rs` lines 201-225):
`UPDATE sessions SET status = disconnected, disconnected_at = NOW(),
expires_at = NOW() + grace WHERE id = $2`.  The `WHERE` clause matches on the
id only; there is no guard on the current status. -/
def mark_disconnected (db : Store) (id : Nat) (now grace_period_secs : Nat) : Store :=
  db_update db id (fun s =>
    { s with
      status := .disconnected
      disconnected_at := some now
      expires_at := some (now + grace_period_secs) })

/-- Store operation `clear_disconnection` (`db/sessions.rs` lines 227-243):
`UPDATE sessions SET status = running, disconnected_at = NULL,
expires_at = NULL WHERE id = $1`.  Again the `WHERE` clause matches on the id
only. -/
def clear_disconnection (db : Store) (id : Nat) : Store :=
  db_update db id (fun s =>
    { s with status := .running, disconnected_at := none, expires_at := none })

/-- Store operation `update_status` (`db/sessions.rs` lines 163-176):
`UPDATE sessions SET status = $1 WHERE id = $2`.  Only the status column is
written. -/
def update_status (db : Store) (id : Nat) (status : SessionStatus) : Store :=
  db_update db id (fun s => { s with status := status })

/-- Store operation `set_container` (`db/sessions.rs` lines 178-199):
`UPDATE sessions SET container_id = $1, container_name = $2,
status = running WHERE id = $3`. -/
def set_container (db : Store) (id : Nat) (cid cname : String) : Store :=
  db_update db id (fun s =>
    { s with container_id := some cid, container_name := some cname, status := .running })

/-- The `SET` clause of `terminate`: `status = terminated,
container_id = NULL, container_name = NULL`. -/
def terminate_row (s : DbSession) : DbSession :=
  { s with status := .terminated, container_id := none, container_name := none }

/-- Store operation `terminate` (`db/sessions.rs` lines 245-259):
`UPDATE sessions SET status = terminated, container_id = NULL,
container_name = NULL WHERE id = $1`. -/
def terminate (db : Store) (id : Nat) : Store :=
  db_update db id terminate_row

/-- Predicate of `get_expired` and of `cleanup_expired_sessions`:
`status = disconnected AND expires_at IS NOT NULL AND expires_at < NOW()`. -/
def expired_pred (now : Nat) (s : DbSession) : Bool :=
  s.status == .disconnected &&
    (match s.expires_at with
     | some e => e < now
     | none => false)

/-- Store operation `get_expired` (`db/sessions.rs` lines 261-272): the rows
whose grace window has elapsed. -/
def get_expired (db : Store) (now : Nat) : Store :=
  List.filter (fun p => expired_pred now p.2) db

/-- Database routine `cleanup_expired_sessions` (`db/cleanup.rs` lines
31-45): `UPDATE sessions SET status = terminated WHERE status = disconnected
AND expires_at IS NOT NULL AND expires_at < NOW()`.  Note that this statement
does not touch `container_id`. -/
def cleanup_expired_sessions (db : Store) (now : Nat) : Store :=
  List.map
    (fun p => if expired_pred now p.2 then (p.1, { p.2 with status := SessionStatus.terminated }) else p)
    db

/-- Store operation `count_active_by_user` (`db/sessions.rs` lines 147-161):
`SELECT COUNT(*) FROM sessions WHERE user_id = $1 AND status IN
(created, running) AND container_id IS NOT NULL`. -/
def count_active_by_user (db : Store) (uid : String) : Nat :=
  List.countP
    (fun p =>
      p.2.user_id == uid &&
        (p.2.status == SessionStatus.created || p.2.status == SessionStatus.running) &&
        p.2.container_id.isSome)
    db

/-- Number of sessions of a tenant with status in set from the spec invariant
(claim C4 measures this quantity): `|{s : s.tenant = T and s.status in
{Created, Running}}|`. -/
def created_running_count (db : Store) (uid : String) : Nat :=
  List.countP
    (fun p =>
      p.2.user_id == uid &&
        (p.2.status == SessionStatus.created || p.2.status == SessionStatus.running))
    db

/-- Store operation `create` (`db/sessions.rs` lines 81-107): `INSERT INTO
sessions (id, user_id, container_image, resource_limits) VALUES ...`.  The
remaining columns take their schema defaults from
`migrations/001_initial.sql`, which is not part of the source tree.
Modelled from the spec: a fresh row has `status = Created`, no container
binding and no disconnect fields ("admission request → Session Manager
(create row, status=Created)", data-model table of section 3). -/
def sessions_create (db : Store) (id : Nat) (uid image : String) (now : Nat) : Store :=
  db ++ [(id,
    { user_id := uid
      status := .created
      container_id := none
      container_name := none
      container_image := image
      created_at := now
      last_activity := now
      disconnected_at := none
      expires_at := none })]

/-! ### Basic lookup/update lemmas -/

theorem db_get_db_update_self (db : Store) (id : Nat) (f : DbSession → DbSession) :
    db_get (db_update db id f) id = (db_get db id).map f := by
  unfold Store at db
  induction db with
  | nil => rfl
  | cons p rest ih =>
    simp only [db_get, db_update, List.map_cons, List.find?] at *
    by_cases h : p.1 = id
    · simp [h]
    · simp only [h, if_false]
      have hb : (p.1 == id) = false := by
        simp [beq_iff_eq, h]
      simp only [hb]
      exact ih

theorem db_get_mark_disconnected (db : Store) (id : Nat) (now g : Nat) :
    db_get (mark_disconnected db id now g) id =
      (db_get db id).map (fun s =>
        { s with
          status := .disconnected
          disconnected_at := some now
          expires_at := some (now + g) }) :=
  db_get_db_update_self db id _

theorem db_get_clear_disconnection (db : Store) (id : Nat) :
    db_get (clear_disconnection db id) id =
      (db_get db id).map (fun s =>
        { s with status := .running, disconnected_at := none, expires_at := none }) :=
  db_get_db_update_self db id _

/-! ### Claim C2 — is Terminated a sink for the store operations? -/

/-- Claim C2 counterexample.  The claim states that `mark_disconnected` is a
no-op on a Terminated session and that `clear_disconnection` moves a session
to Running only from Disconnected.  In the code both `UPDATE` statements
filter on the id alone, so on a store holding a single Terminated session,
`mark_disconnected` rewrites it to Disconnected and `clear_disconnection`
rewrites it to Running: Terminated has outgoing transitions. -/
theorem mark_disconnected_on_terminated_not_noop :
    (db_get
        (mark_disconnected
          [(0, ⟨"alice", .terminated, none, none, "ubuntu:22.04", 0, 0, none, none⟩)]
          0 7 300) 0).map (fun s => s.status) = some .disconnected ∧
    (db_get
        (clear_disconnection
          [(0, ⟨"alice", .terminated, none, none, "ubuntu:22.04", 0, 0, none, none⟩)]
          0) 0).map (fun s => s.status) = some .running := by
  constructor <;> rfl

/-- Claim C2 (amended): `mark_disconnected` and `clear_disconnection` update
the row with the given id unconditionally, whatever its current status; in
particular a Terminated session is moved to Disconnected (with fresh
disconnect fields) respectively to Running.  Terminated is not a sink. -/
theorem mark_and_clear_update_unconditionally (db : Store) (id : Nat) (now g : Nat)
    (s : DbSession) (h : db_get db id = some s) :
    db_get (mark_disconnected db id now g) id =
      some { s with
        status := .disconnected
        disconnected_at := some now
        expires_at := some (now + g) } ∧
    db_get (clear_disconnection db id) id =
      some { s with status := .running, disconnected_at := none, expires_at := none } := by
  rw [db_get_mark_disconnected, db_get_clear_disconnection, h]
  exact ⟨rfl, rfl⟩

/-- Witness for the amended C2 theorem on a concrete Terminated row. -/
theorem mark_and_clear_update_unconditionally_witness :
    db_get
        (mark_disconnected
          [(5, ⟨"bob", .terminated, none, none, "ubuntu:22.04", 1, 2, none, none⟩)]
          5 10 300) 5 =
      some ⟨"bob", .disconnected, none, none, "ubuntu:22.04", 1, 2, some 10, some 310⟩ ∧
    db_get
        (clear_disconnection
          [(5, ⟨"bob", .terminated, none, none, "ubuntu:22.04", 1, 2, none, none⟩)]
          5) 5 =
      some ⟨"bob", .running, none, none, "ubuntu:22.04", 1, 2, none, none⟩ :=
  mark_and_clear_update_unconditionally
    [(5, ⟨"bob", .terminated, none, none, "ubuntu:22.04", 1, 2, none, none⟩)]
    5 10 300 _ rfl

/-! ### Claim C6 — does a repeated disconnect keep the earliest timestamp? -/

/-- Claim C6 counterexample.  Disconnecting at time 1 and again at time 2
leaves `disconnected_at = 2`: the second call overwrites the timestamp of the
first, so the earliest `disconnected_at` is not kept. -/
theorem mark_disconnected_twice_keeps_latest :
    (db_get
        (mark_disconnected
          (mark_disconnected
            [(0, ⟨"alice", .running, some "c1", some "n1", "ubuntu:22.04", 0, 0, none, none⟩)]
            0 1 300)
          0 2 300) 0).map (fun s => s.disconnected_at) = some (some 2) ∧
    some (some 2) ≠ some (some (1 : Nat)) := by
  exact ⟨rfl, by decide⟩

/-- Claim C6 (amended): `mark_disconnected` is not idempotent in
`disconnected_at`; it unconditionally writes `disconnected_at = NOW()`, so of
two successive disconnect calls the ***latest*** timestamp wins. -/
theorem mark_disconnected_overwrites_disconnected_at (db : Store) (id : Nat)
    (t1 g1 t2 g2 : Nat) (h : (db_get db id).isSome) :
    (db_get (mark_disconnected (mark_disconnected db id t1 g1) id t2 g2) id).map
        (fun s => s.disconnected_at) = some (some t2) := by
  cases hs : db_get db id with
  | none => rw [hs] at h; simp at h
  | some s =>
    rw [db_get_mark_disconnected, db_get_mark_disconnected, hs]
    rfl

/-- Witness for the amended C6 theorem on a concrete session. -/
theorem mark_disconnected_overwrites_disconnected_at_witness :
    (db_get
        (mark_disconnected
          (mark_disconnected
            [(3, ⟨"carol", .running, some "c9", none, "ubuntu:22.04", 0, 0, none, none⟩)]
            3 100 300)
          3 200 300) 3).map (fun s => s.disconnected_at) = some (some 200) :=
  mark_disconnected_overwrites_disconnected_at
    [(3, ⟨"carol", .running, some "c9", none, "ubuntu:22.04", 0, 0, none, none⟩)]
    3 100 300 200 300 (by decide)

/-! ### In-memory session cache and the reattach handler (`noxterm.rs`) -/

/-- In-memory `Session` struct from `noxterm.rs` (the `AppState.sessions`
cache).  Its `status` field is a plain string in the source. -/
structure MemSession where
  user_id : String
  status : String
  container_id : Option String
  container_name : Option String
  container_image : String
deriving DecidableEq, Repr

/-- The in-memory session map of `AppState`. -/
abbrev MemStore := List (Nat × MemSession)

/-- Lookup in the in-memory session map. -/
def mem_get (mem : MemStore) (id : Nat) : Option MemSession :=
  (List.find? (fun p => p.1 == id) mem).map (fun p => p.2)

/-- Outcomes of `POST /api/sessions/:id/reattach` (`reattach_session` in
`noxterm.rs`, lines 1150-1242). -/
inductive ReattachOutcome where
  | reattached200
  | conflict409
  | memActive200
  | memConflict409
  | notFound404
deriving DecidableEq, Repr

/-- Handler `reattach_session` (`noxterm.rs` lines 1150-1242), database
branch plus the in-memory fallback.  When the row is Disconnected and its
`expires_at` lies in the future the handler answers 200 and calls
`update_status(pool, id, Running)` — not `clear_disconnection`; in every
other case the store is left unchanged. -/
def reattach_session (db : Store) (mem : MemStore) (now : Nat) (id : Nat) :
    ReattachOutcome × Store :=
  match db_get db id with
  | some s =>
    if s.status = .disconnected then
      match s.expires_at with
      | some e =>
        if now < e then (.reattached200, update_status db id .running)
        else (.conflict409, db)
      | none => (.conflict409, db)
    else (.conflict409, db)
  | none =>
    match mem_get mem id with
    | some m =>
      if m.status == "running" && m.container_id.isSome then (.memActive200, db)
      else (.memConflict409, db)
    | none => (.notFound404, db)

/-! ### Claim C3 — does a successful reattach null the disconnect fields? -/

/-- Claim C3 counterexample.  On a store holding one Disconnected session
with `disconnected_at = 3` and `expires_at = 100`, a reattach at time 10
answers 200 and sets `status = running`, but `disconnected_at` and
`expires_at` keep their old non-null values, breaking the claimed invariant
that a Running session has both disconnect fields null. -/
theorem reattach_leaves_disconnect_fields :
    reattach_session
        [(0, ⟨"alice", .disconnected, some "c1", some "n1", "ubuntu:22.04", 0, 0, some 3, some 100⟩)]
        [] 10 0 =
      (.reattached200,
        [(0, ⟨"alice", .running, some "c1", some "n1", "ubuntu:22.04", 0, 0, some 3, some 100⟩)]) ∧
    some (3 : Nat) ≠ none ∧ some (100 : Nat) ≠ none := by
  refine ⟨rfl, by decide, by decide⟩

/-- Claim C3 (amended): a reattach on a Disconnected session whose grace
window has not elapsed answers 200 and sets the status to Running, but the
handler writes only the status column (`update_status`), so
`disconnected_at` and `expires_at` keep their previous non-null values. -/
theorem reattach_within_grace_sets_status_only (db : Store) (mem : MemStore)
    (now id : Nat) (s : DbSession) (e : Nat)
    (hget : db_get db id = some s)
    (hst : s.status = .disconnected)
    (hexp : s.expires_at = some e)
    (hnow : now < e) :
    (reattach_session db mem now id).1 = .reattached200 ∧
    db_get (reattach_session db mem now id).2 id = some { s with status := .running } := by
  have hdb : reattach_session db mem now id = (.reattached200, update_status db id .running) := by
    unfold reattach_session
    rw [hget]
    simp [hst, hexp, hnow]
  refine ⟨by rw [hdb], ?_⟩
  rw [hdb]
  show db_get (update_status db id .running) id = _
  rw [update_status, db_get_db_update_self, hget]
  rfl

/-- Witness for the amended C3 theorem on a concrete disconnected session. -/
theorem reattach_within_grace_sets_status_only_witness :
    (reattach_session
        [(2, ⟨"dave", .disconnected, some "c7", none, "ubuntu:22.04", 0, 0, some 40, some 500⟩)]
        [] 60 2).1 = .reattached200 ∧
    db_get
        (reattach_session
          [(2, ⟨"dave", .disconnected, some "c7", none, "ubuntu:22.04", 0, 0, some 40, some 500⟩)]
          [] 60 2).2 2 =
      some ⟨"dave", .running, some "c7", none, "ubuntu:22.04", 0, 0, some 40, some 500⟩ :=
  reattach_within_grace_sets_status_only
    [(2, ⟨"dave", .disconnected, some "c7", none, "ubuntu:22.04", 0, 0, some 40, some 500⟩)]
    [] 60 2
    ⟨"dave", .disconnected, some "c7", none, "ubuntu:22.04", 0, 0, some 40, some 500⟩
    500 rfl rfl rfl (by decide)

/-! ### Claim C4 — does the admission check bound Created/Running sessions? -/

/-- Quota predicate `can_create_container` (`lifecycle.rs` lines 499-502):
admission is allowed while `count_active_by_user` is below
`max_containers_per_user`. -/
def can_create_container (max_containers_per_user : Nat) (db : Store) (uid : String) : Bool :=
  count_active_by_user db uid < max_containers_per_user

/-- Quota branch of `POST /api/sessions` (`create_session` in `noxterm.rs`,
lines 624-697): when `can_create_container` denies, the handler answers 429
and inserts nothing (`none`); otherwise the new row is inserted via
`sessions::create`. -/
def create_session_quota_gate (max_containers_per_user : Nat) (db : Store)
    (uid image : String) (new_id now : Nat) : Option Store :=
  if can_create_container max_containers_per_user db uid then
    some (sessions_create db new_id uid image now)
  else none

/-- Claim C4 counterexample.  With `max_per_tenant = 3`, four consecutive
admissions for tenant "bob" all succeed, because each new row has
`container_id = NULL` and `count_active_by_user` counts only rows with a
non-null `container_id`.  The committed state then holds 4 sessions of "bob"
with status in {Created, Running}, exceeding the claimed bound of 3. -/
theorem quota_admission_unbounded :
    ((((create_session_quota_gate 3 [] "bob" "ubuntu:22.04" 0 0).bind
          (fun db => create_session_quota_gate 3 db "bob" "ubuntu:22.04" 1 0)).bind
        (fun db => create_session_quota_gate 3 db "bob" "ubuntu:22.04" 2 0)).bind
      (fun db => create_session_quota_gate 3 db "bob" "ubuntu:22.04" 3 0)).map
        (fun db => created_running_count db "bob") = some 4 ∧
    3 < 4 := by
  exact ⟨rfl, by decide⟩

/-- Claim C4 (amended): the admission check bounds only the quantity it
measures — at the moment a creation is admitted, the tenant's count of
Created/Running sessions **with a container bound** is below
`max_per_tenant`, and the freshly inserted row (whose `container_id` is null)
does not increase that count.  The total number of Created/Running sessions
of a tenant is not bounded by the check. -/
theorem quota_gate_bounds_container_count (m : Nat) (db : Store) (uid image : String)
    (new_id now : Nat) (db2 : Store)
    (h : create_session_quota_gate m db uid image new_id now = some db2) :
    count_active_by_user db2 uid < m := by
  unfold create_session_quota_gate at h
  by_cases hc : can_create_container m db uid
  · rw [if_pos hc] at h
    have hdb2 : db2 = sessions_create db new_id uid image now :=
      (Option.some.inj h).symm
    have hcount : count_active_by_user db2 uid = count_active_by_user db uid := by
      rw [hdb2]
      unfold sessions_create count_active_by_user
      rw [List.countP_append]
      simp
    rw [hcount]
    have := of_decide_eq_true hc
    exact this
  · rw [if_neg hc] at h
    exact absurd h (by simp)

/-- Witness for the amended C4 theorem: one admitted creation on an empty
store keeps the bound-container count below the limit. -/
theorem quota_gate_bounds_container_count_witness :
    count_active_by_user
        (sessions_create [] 9 "erin" "ubuntu:22.04" 5) "erin" < 3 :=
  quota_gate_bounds_container_count 3 [] "erin" "ubuntu:22.04" 9 5
    (sessions_create [] 9 "erin" "ubuntu:22.04" 5) rfl

/-! ### Claim C5 — Terminated implies no container reference -/

/-- Data-model invariant 1 of the spec, the quantity claim C5 asserts:
every Terminated session row holds no container reference. -/
def TerminatedContainerInv (db : Store) : Prop :=
  ∀ p ∈ db, p.2.status = SessionStatus.terminated → p.2.container_id = none

instance (db : Store) : Decidable (TerminatedContainerInv db) := by
  unfold TerminatedContainerInv
  infer_instance

/-- Database effect of one expiry sweep of the reconciler
(`run_cleanup_task` in `lifecycle.rs` lines 111-167): fetch the expired rows
(`get_expired`, observing the database clock at `t_sweep`), call `terminate`
for each of them, then run `db::cleanup::run_all`, whose sessions step is
`cleanup_expired_sessions` (observing the clock again, at `t_cleanup`).  The
container stop calls and audit appends of the loop do not touch the
`sessions` table and are modelled separately. -/
def run_cleanup_tick (db : Store) (t_sweep t_cleanup : Nat) : Store :=
  cleanup_expired_sessions
    (List.foldl (fun acc p => terminate acc p.1) db (get_expired db t_sweep))
    t_cleanup

/-- Claim C5 counterexample.  A session whose grace window elapses between
the sweep's `get_expired` read (clock 4) and the trailing
`cleanup_expired_sessions` call (clock 6) is terminated by the latter, which
sets only the status column: the committed state holds a Terminated row with
`container_id = some "c1"`, violating the claimed invariant. -/
theorem cleanup_terminates_without_clearing_container :
    run_cleanup_tick
        [(0, ⟨"alice", .disconnected, some "c1", some "n1", "ubuntu:22.04", 0, 0, some 3, some 5⟩)]
        4 6 =
      [(0, ⟨"alice", .terminated, some "c1", some "n1", "ubuntu:22.04", 0, 0, some 3, some 5⟩)] ∧
    ¬ TerminatedContainerInv
        [(0, ⟨"alice", .terminated, some "c1", some "n1", "ubuntu:22.04", 0, 0, some 3, some 5⟩)] := by
  constructor
  · rfl
  · intro h
    have := h (0, ⟨"alice", .terminated, some "c1", some "n1", "ubuntu:22.04", 0, 0, some 3, some 5⟩)
      (List.mem_singleton.mpr rfl) rfl
    simp at this

theorem terminate_row_idem (s : DbSession) :
    terminate_row (terminate_row s) = terminate_row s := rfl

/-- Folding `terminate` over a list of rows terminates exactly the ids that
occur in the list and leaves every other row unchanged. -/
theorem foldl_terminate_char (l : List (Nat × DbSession)) :
    ∀ db : Store,
      List.foldl (fun acc p => terminate acc p.1) db l =
        List.map
          (fun q => if q.1 ∈ List.map Prod.fst l then (q.1, terminate_row q.2) else q) db := by
  induction l with
  | nil =>
    intro db
    simp
  | cons p l ih =>
    intro db
    have step : List.foldl (fun acc p => terminate acc p.1) db (p :: l) =
        List.foldl (fun acc p => terminate acc p.1) (terminate db p.1) l := rfl
    rw [step, ih (terminate db p.1)]
    unfold terminate db_update
    rw [List.map_map]
    apply List.map_congr_left
    intro q _
    by_cases h1 : q.1 = p.1
    · by_cases h2 : q.1 ∈ List.map Prod.fst l <;>
        simp [Function.comp, h1, h2, terminate_row_idem]
    · by_cases h2 : q.1 ∈ List.map Prod.fst l <;>
        simp [Function.comp, h1, h2]

/-- Claim C5 (amended): `terminate` always clears the container columns, and
the reconciler's expiry sweep preserves the invariant provided the
`get_expired` read and the trailing `cleanup_expired_sessions` observe the
same database clock; `cleanup_expired_sessions` alone sets
`status = terminated` without touching `container_id`, so only a session
whose expiry falls between the two clock reads can end Terminated with a
non-null container reference. -/
theorem cleanup_tick_single_clock_preserves_inv (db : Store) (t : Nat)
    (h : TerminatedContainerInv db) :
    TerminatedContainerInv (run_cleanup_tick db t t) := by
  intro q hq hterm
  unfold run_cleanup_tick cleanup_expired_sessions at hq
  rw [foldl_terminate_char (get_expired db t) db, List.map_map] at hq
  obtain ⟨u, hu, hqe⟩ := List.mem_map.mp hq
  by_cases hm : u.1 ∈ List.map Prod.fst (get_expired db t)
  · -- the per-session loop already terminated this id; `cleanup` skips it
    have hpred : expired_pred t (terminate_row u.2) = false := by
      simp [expired_pred, terminate_row]
    simp only [Function.comp, hm, if_true, hpred, Bool.false_eq_true, if_false] at hqe
    rw [← hqe]
    rfl
  · -- untouched by the loop; show `cleanup` cannot fire on it either
    by_cases hpred : expired_pred t u.2 = true
    · exact absurd (List.mem_map.mpr ⟨u, List.mem_filter.mpr ⟨hu, hpred⟩, rfl⟩) hm
    · simp only [Function.comp, hm, if_false, hpred, Bool.false_eq_true] at hqe
      rw [← hqe] at hterm ⊢
      exact h u hu hterm

/-- Witness for the amended C5 theorem: a tick over a store holding one
already-expired Disconnected session (grace elapsed at clock 9) keeps the
invariant — the loop's `terminate` clears the container reference. -/
theorem cleanup_tick_single_clock_preserves_inv_witness :
    TerminatedContainerInv
      (run_cleanup_tick
        [(0, ⟨"alice", .disconnected, some "c1", some "n1", "ubuntu:22.04", 0, 0, some 3, some 5⟩)]
        9 9) :=
  cleanup_tick_single_clock_preserves_inv
    [(0, ⟨"alice", .disconnected, some "c1", some "n1", "ubuntu:22.04", 0, 0, some 3, some 5⟩)]
    9 (by decide)

/-! ### Container runtime model, `stop_container` and `cleanup_container` -/

/-- Response classes of the container runtime (bollard) as discriminated by
the source: success, the 404 `DockerResponseServerError` ("no such
container"), or any other error. -/
inductive DockerResult where
  | ok
  | notFound404
  | otherErr
deriving DecidableEq, Repr

/-- The runtime's state, as the list of existing container ids.  A healthy
daemon answers 404 exactly for an absent container and never produces
another error class. -/
abbrev DockerState := List String

/-- Runtime call `stop_container` (SIGTERM with timeout): stopping does not
erase the container's id from the daemon. -/
def docker_stop_container (d : DockerState) (cid : String) : DockerResult × DockerState :=
  if cid ∈ d then (.ok, d) else (.notFound404, d)

/-- Runtime call `kill_container`. -/
def docker_kill_container (d : DockerState) (cid : String) : DockerResult × DockerState :=
  if cid ∈ d then (.ok, d) else (.notFound404, d)

/-- Runtime call `remove_container`: on success the id is gone. -/
def docker_remove_container (d : DockerState) (cid : String) : DockerResult × DockerState :=
  if cid ∈ d then (.ok, List.filter (fun c => c != cid) d) else (.notFound404, d)

/-- Remove step of `LifecycleManager::stop_container` (`lifecycle.rs` lines
417-440): force remove; a 404 answer is logged as "already removed" and is
success; any other error is returned as failure. -/
def lifecycle_remove_step (d : DockerState) (cid : String) : Bool × DockerState :=
  match docker_remove_container d cid with
  | (.ok, d2) => (true, d2)
  | (.notFound404, d2) => (true, d2)
  | (.otherErr, d2) => (false, d2)

/-- `LifecycleManager::stop_container` (`lifecycle.rs` lines 390-441):
graceful stop; a 404 answer returns success immediately; another stop error
triggers a force kill (result ignored); then the remove step. -/
def lifecycle_stop_container (d : DockerState) (cid : String) : Bool × DockerState :=
  match docker_stop_container d cid with
  | (.ok, d1) => lifecycle_remove_step d1 cid
  | (.notFound404, d1) => (true, d1)
  | (.otherErr, d1) => lifecycle_remove_step (docker_kill_container d1 cid).2 cid

theorem lifecycle_stop_container_fst_true (d : DockerState) (cid : String) :
    (lifecycle_stop_container d cid).1 = true := by
  unfold lifecycle_stop_container docker_stop_container
  by_cases h : cid ∈ d
  · rw [if_pos h]
    show (lifecycle_remove_step d cid).1 = true
    unfold lifecycle_remove_step docker_remove_container
    rw [if_pos h]
  · rw [if_neg h]

/-! ### Claim C9 — not-found is success; stop-and-remove is repeatable -/

/-- Claim C9: `stop_container` treats the runtime's "no such container"
answer as success in both its stop and its remove step (on an absent
container the call is a successful no-op), and over a healthy daemon two
consecutive `stop_container` calls on the same container both return
success — the second call finds the container gone and succeeds through the
404 path. -/
theorem stop_container_not_found_success_and_repeatable :
    (∀ (d : DockerState) (cid : String), cid ∉ d → lifecycle_stop_container d cid = (true, d)) ∧
    (∀ (d : DockerState) (cid : String), cid ∉ d → lifecycle_remove_step d cid = (true, d)) ∧
    (∀ (d : DockerState) (cid : String),
      (lifecycle_stop_container d cid).1 = true ∧
      (lifecycle_stop_container (lifecycle_stop_container d cid).2 cid).1 = true) := by
  refine ⟨?_, ?_, ?_⟩
  · intro d cid h
    unfold lifecycle_stop_container docker_stop_container
    rw [if_neg h]
  · intro d cid h
    unfold lifecycle_remove_step docker_remove_container
    rw [if_neg h]
  · intro d cid
    exact ⟨lifecycle_stop_container_fst_true d cid, lifecycle_stop_container_fst_true _ cid⟩

/-- Witness for C9 on concrete daemon states: a stop of an absent container
is a successful no-op, the remove step likewise, and stopping the same
container twice succeeds both times. -/
theorem stop_container_not_found_success_and_repeatable_witness :
    lifecycle_stop_container ["a"] "b" = (true, ["a"]) ∧
    lifecycle_remove_step ["a"] "b" = (true, ["a"]) ∧
    ((lifecycle_stop_container ["c"] "c").1 = true ∧
      (lifecycle_stop_container (lifecycle_stop_container ["c"] "c").2 "c").1 = true) :=
  ⟨stop_container_not_found_success_and_repeatable.1 ["a"] "b" (by decide),
   stop_container_not_found_success_and_repeatable.2.1 ["a"] "b" (by decide),
   stop_container_not_found_success_and_repeatable.2.2 ["c"] "c"⟩

/-! ### Claim C1 — what the PTY pump tear-down actually does -/

/-- Application state used by the WebSocket handlers in `noxterm.rs`: the
Docker daemon, the in-memory session map and the session store. -/
structure AppState where
  docker : DockerState
  sessions : MemStore
  db : Store
deriving DecidableEq, Repr

/-- `cleanup_container` (`noxterm.rs` lines 2506-2528): read the container
id of the session from the ***in-memory*** map; if present, stop and remove
that container (both runtime errors are only logged); finally drop the
session from the in-memory map.  The database is not touched. -/
def cleanup_container (st : AppState) (id : Nat) : AppState :=
  let st1 :=
    match (mem_get st.sessions id).bind (fun s => s.container_id) with
    | some cid =>
      let d1 := (docker_stop_container st.docker cid).2
      let d2 := (docker_remove_container d1 cid).2
      { st with docker := d2 }
    | none => st
  { st1 with sessions := List.filter (fun p => p.1 != id) st1.sessions }

/-- Tear-down tail of `handle_pty_websocket` (`noxterm.rs` lines 2267-2284):
after the inbound, outbound and resize tasks are joined, the handler
unconditionally calls `cleanup_container` — on every tear-down path
(client close, idle timeout, stream end alike). -/
def pty_pump_teardown (st : AppState) (id : Nat) : AppState :=
  cleanup_container st id

/-- Claim C1 counterexample.  A PTY tear-down over a running session bound
to container "c1" (a client-close tear-down, not an explicit terminate)
ends with the container stopped and removed from the daemon and with the
database row untouched — still `status = running`, no `disconnected_at`, no
`expires_at`.  `mark_disconnected` is never called on this path, the session
row does not end Disconnected, and the container is not kept alive. -/
theorem pty_teardown_removes_container_immediately :
    pty_pump_teardown
        ⟨["c1"],
         [(0, ⟨"alice", "running", some "c1", some "noxterm-session-ab", "ubuntu:22.04"⟩)],
         [(0, ⟨"alice", .running, some "c1", some "noxterm-session-ab", "ubuntu:22.04", 0, 0, none, none⟩)]⟩
        0 =
      ⟨[], [],
       [(0, ⟨"alice", .running, some "c1", some "noxterm-session-ab", "ubuntu:22.04", 0, 0, none, none⟩)]⟩ := by
  rfl

theorem mem_get_filter_out (mem : MemStore) (id : Nat) :
    mem_get (List.filter (fun p => p.1 != id) mem) id = none := by
  induction mem with
  | nil => rfl
  | cons p rest ih =>
    by_cases h : p.1 = id
    · simp only [List.filter_cons]
      have : (p.1 != id) = false := by simp [bne, h]
      rw [this]
      exact ih
    · simp only [List.filter_cons]
      have hb : (p.1 != id) = true := by simp [bne, h]
      rw [hb]
      show mem_get (p :: List.filter (fun p => p.1 != id) rest) id = none
      unfold mem_get
      rw [List.find?]
      have : (p.1 == id) = false := by simp [h]
      rw [this]
      exact ih

theorem not_mem_docker_remove (d : DockerState) (cid : String) :
    cid ∉ (docker_remove_container d cid).2 := by
  unfold docker_remove_container
  by_cases h : cid ∈ d
  · rw [if_pos h]
    intro hmem
    have := (List.mem_filter.mp hmem).2
    simp at this
  · rw [if_neg h]
    exact h

/-- Claim C1 (amended): after the pump tasks return, the handler runs
`cleanup_container` on every tear-down path: the database is left untouched
(no `mark_disconnected`, so the row keeps whatever status it had), the
session is dropped from the in-memory map, and if the in-memory session was
bound to a container, that container is stopped and removed from the daemon
rather than kept alive for a grace window. -/
theorem pty_teardown_cleanup_only (st : AppState) (id : Nat) :
    (pty_pump_teardown st id).db = st.db ∧
    mem_get (pty_pump_teardown st id).sessions id = none ∧
    (∀ (m : MemSession) (cid : String),
      mem_get st.sessions id = some m → m.container_id = some cid →
        cid ∉ (pty_pump_teardown st id).docker) := by
  unfold pty_pump_teardown cleanup_container
  cases hc : (mem_get st.sessions id).bind (fun s => s.container_id) with
  | none =>
    refine ⟨rfl, mem_get_filter_out st.sessions id, ?_⟩
    intro m cid hm hcid
    rw [hm] at hc
    simp only [Option.some_bind] at hc
    rw [hcid] at hc
    exact absurd hc (by simp)
  | some cid0 =>
    refine ⟨rfl, mem_get_filter_out st.sessions id, ?_⟩
    intro m cid hm hcid
    rw [hm] at hc
    simp only [Option.some_bind] at hc
    rw [hcid] at hc
    have : cid = cid0 := by injection hc
    subst this
    exact not_mem_docker_remove _ cid

/-- Witness for the amended C1 theorem on the concrete state of the
counterexample: the database is untouched, the in-memory entry is gone and
container "c1" is no longer known to the daemon. -/
theorem pty_teardown_cleanup_only_witness :
    (pty_pump_teardown
        ⟨["c1"],
         [(0, ⟨"alice", "running", some "c1", some "noxterm-session-ab", "ubuntu:22.04"⟩)],
         [(0, ⟨"alice", .running, some "c1", some "noxterm-session-ab", "ubuntu:22.04", 0, 0, none, none⟩)]⟩
        0).db =
      [(0, ⟨"alice", .running, some "c1", some "noxterm-session-ab", "ubuntu:22.04", 0, 0, none, none⟩)] ∧
    "c1" ∉ (pty_pump_teardown
        ⟨["c1"],
         [(0, ⟨"alice", "running", some "c1", some "noxterm-session-ab", "ubuntu:22.04"⟩)],
         [(0, ⟨"alice", .running, some "c1", some "noxterm-session-ab", "ubuntu:22.04", 0, 0, none, none⟩)]⟩
        0).docker :=
  ⟨(pty_teardown_cleanup_only
      ⟨["c1"],
       [(0, ⟨"alice", "running", some "c1", some "noxterm-session-ab", "ubuntu:22.04"⟩)],
       [(0, ⟨"alice", .running, some "c1", some "noxterm-session-ab", "ubuntu:22.04", 0, 0, none, none⟩)]⟩
      0).1,
   (pty_teardown_cleanup_only
      ⟨["c1"],
       [(0, ⟨"alice", "running", some "c1", some "noxterm-session-ab", "ubuntu:22.04"⟩)],
       [(0, ⟨"alice", .running, some "c1", some "noxterm-session-ab", "ubuntu:22.04", 0, 0, none, none⟩)]⟩
      0).2.2 ⟨"alice", "running", some "c1", some "noxterm-session-ab", "ubuntu:22.04"⟩ "c1" rfl rfl⟩

/-! ### Claim C10 — admission is fail-open on store errors -/

/-- Result of a fallible database call (`sqlx::Result`): a value or a
database error. -/
inductive DbCall (α : Type) where
  | ok (value : α)
  | err
deriving DecidableEq, Repr

instance (α : Type) [Fintype α] [DecidableEq α] : Fintype (DbCall α) where
  elems := Finset.image DbCall.ok Finset.univ ∪ {DbCall.err}
  complete := by
    intro c
    cases c with
    | ok a => simp
    | err => simp

/-- Outcomes of the admission prefix of `POST /api/sessions`
(`create_session` in `noxterm.rs`). -/
inductive CreateOutcome where
  | rateLimited429
  | invalidUser400
  | invalidImage400
  | quotaLimited429
  | proceed201
deriving DecidableEq, Repr

/-- Admission control flow of `create_session` (`noxterm.rs` lines
549-707).  `rate_result` is the outcome of
`rate_limits::check_and_increment` (absent when no database pool is
configured); `quota_result` is the outcome of
`lifecycle.can_create_container` (absent when no lifecycle manager is
configured).  In the source, `Ok(false)` returns 429 in either branch while
`Err(_)` is merely logged and the handler continues — the quota branch even
carries the comment "Continue anyway - don't block user due to DB
issues". -/
def create_session_admission (rate_result : Option (DbCall Bool))
    (user_ok image_ok : Bool) (quota_result : Option (DbCall Bool)) : CreateOutcome :=
  match rate_result with
  | some (.ok false) => .rateLimited429
  | _ =>
    if !user_ok then .invalidUser400
    else if !image_ok then .invalidImage400
    else
      match quota_result with
      | some (.ok false) => .quotaLimited429
      | _ => .proceed201

/-- Claim C10: admission is fail-open with respect to store errors — a
database error from the rate-limit upsert never yields the rate-limit 429, a
database error from the quota count never yields the quota 429, with valid
inputs and both calls erroring the request proceeds to creation, and
conversely each 429 can only arise from an explicit `Ok(false)` denial of
the corresponding check. -/
theorem create_session_admission_fail_open :
    (∀ (u i : Bool) (q : Option (DbCall Bool)),
      create_session_admission (some .err) u i q ≠ .rateLimited429) ∧
    (∀ (r : Option (DbCall Bool)) (u i : Bool),
      create_session_admission r u i (some .err) ≠ .quotaLimited429) ∧
    create_session_admission (some .err) true true (some .err) = .proceed201 ∧
    (∀ (r : Option (DbCall Bool)) (u i : Bool) (q : Option (DbCall Bool)),
      create_session_admission r u i q = .rateLimited429 → r = some (.ok false)) ∧
    (∀ (r : Option (DbCall Bool)) (u i : Bool) (q : Option (DbCall Bool)),
      create_session_admission r u i q = .quotaLimited429 → q = some (.ok false)) := by
  refine ⟨by decide, by decide, rfl, by decide, by decide⟩

/-- Witness for C10: with both store calls erroring and valid inputs the
request proceeds, and the implications are discharged at an explicit
denial. -/
theorem create_session_admission_fail_open_witness :
    create_session_admission (some .err) true false none ≠ .rateLimited429 ∧
    create_session_admission none true true (some .err) ≠ .quotaLimited429 ∧
    (some (DbCall.ok false) : Option (DbCall Bool)) = some (.ok false) :=
  ⟨create_session_admission_fail_open.1 true false none,
   create_session_admission_fail_open.2.1 none true true,
   create_session_admission_fail_open.2.2.2.1 (some (.ok false)) true true none rfl⟩

/-! ### Claim C7 — the bucketed rate limiter (`db/rate_limits.rs`) -/

/-- Key of the `rate_limits` table: `(identifier, endpoint, window_start)`
with `window_start` in seconds truncated to the minute.  The table carries a
unique index on this triple — the `ON CONFLICT` target of the upsert. -/
abbrev RateKey := String × String × Nat

/-- The `rate_limits` table: one `request_count` per key. -/
abbrev RateStore := List (RateKey × Nat)

/-- Row lookup in the `rate_limits` table. -/
def rate_get (rs : RateStore) (k : RateKey) : Option Nat :=
  (List.find? (fun p => decide (p.1 = k)) rs).map (fun p => p.2)

/-- Rewrite of the conflicting row by the upsert's `DO UPDATE` branch. -/
def rate_set (rs : RateStore) (k : RateKey) (c : Nat) : RateStore :=
  List.map (fun p => if p.1 = k then (k, c) else p) rs

/-- `check_and_increment` (`db/rate_limits.rs` lines 9-42), a single atomic
upsert: `INSERT INTO rate_limits VALUES ($1, $2, 1, date_trunc(minute,
NOW())) ON CONFLICT (identifier, endpoint, window_start) DO UPDATE SET
request_count = request_count + 1 WHERE window_start > NOW() - $3 seconds
RETURNING request_count`, then `allowed = request_count <= max_requests`.
When the `DO UPDATE` filter rejects the conflicting row, nothing is
returned and `fetch_one` surfaces a `RowNotFound` database error (`none`
here).  `window_start > NOW() - w` is stated subtraction-free as
`now < window_start + w`. -/
def check_and_increment (rs : RateStore) (identifier endpoint : String)
    (max_requests window_seconds now : Nat) : Option (Bool × RateStore) :=
  match rate_get rs (identifier, endpoint, now / 60 * 60) with
  | none =>
    some (decide (1 ≤ max_requests), ((identifier, endpoint, now / 60 * 60), 1) :: rs)
  | some c =>
    if now < now / 60 * 60 + window_seconds then
      some (decide (c + 1 ≤ max_requests),
        rate_set rs (identifier, endpoint, now / 60 * 60) (c + 1))
    else none

/-- A sequence of `check_and_increment` calls against the same identifier
and endpoint, at the given call times.  Since each call is one atomic
upsert, any concurrent execution is an interleaving of these atomic
steps. -/
def run_rate_calls (identifier endpoint : String) (max_requests window_seconds : Nat) :
    RateStore → List Nat → List (Option Bool) × RateStore
  | rs, [] => ([], rs)
  | rs, t :: ts =>
    match check_and_increment rs identifier endpoint max_requests window_seconds t with
    | some (b, rs1) =>
      ((some b) :: (run_rate_calls identifier endpoint max_requests window_seconds rs1 ts).1,
        (run_rate_calls identifier endpoint max_requests window_seconds rs1 ts).2)
    | none =>
      (none :: (run_rate_calls identifier endpoint max_requests window_seconds rs ts).1,
        (run_rate_calls identifier endpoint max_requests window_seconds rs ts).2)

/-- Number of Allowed outcomes among a list of call results. -/
def count_allowed (outs : List (Option Bool)) : Nat :=
  List.countP (fun o => o == some true) outs

theorem run_rate_calls_cons (identifier endpoint : String)
    (max_requests window_seconds : Nat) (rs : RateStore) (t : Nat) (ts : List Nat) :
    run_rate_calls identifier endpoint max_requests window_seconds rs (t :: ts) =
      match check_and_increment rs identifier endpoint max_requests window_seconds t with
      | some (b, rs1) =>
        ((some b) :: (run_rate_calls identifier endpoint max_requests window_seconds rs1 ts).1,
          (run_rate_calls identifier endpoint max_requests window_seconds rs1 ts).2)
      | none =>
        (none :: (run_rate_calls identifier endpoint max_requests window_seconds rs ts).1,
          (run_rate_calls identifier endpoint max_requests window_seconds rs ts).2) := by
  rfl

theorem rate_get_cons_self (rs : RateStore) (k : RateKey) (c : Nat) :
    rate_get ((k, c) :: rs) k = some c := by
  unfold rate_get
  have : List.find? (fun p => decide (p.1 = k)) ((k, c) :: rs) = some (k, c) := by
    apply List.find?_cons_of_pos
    simp
  rw [this]
  rfl

theorem rate_get_rate_set_self (rs : RateStore) (k : RateKey) (c v : Nat)
    (h : rate_get rs k = some c) : rate_get (rate_set rs k v) k = some v := by
  induction rs with
  | nil => simp [rate_get] at h
  | cons p rest ih =>
    by_cases hp : p.1 = k
    · unfold rate_set
      rw [List.map_cons, if_pos hp]
      unfold rate_get
      have : List.find? (fun q => decide (q.1 = k))
          ((k, v) :: List.map (fun q => if q.1 = k then (k, v) else q) rest) = some (k, v) := by
        apply List.find?_cons_of_pos
        simp
      rw [this]
      rfl
    · have hstep : rate_get (p :: rest) k = rate_get rest k := by
        unfold rate_get
        rw [List.find?_cons_of_neg]
        simp [hp]
      rw [hstep] at h
      have := ih h
      unfold rate_set at this ⊢
      rw [List.map_cons, if_neg hp]
      unfold rate_get at this ⊢
      rw [List.find?_cons_of_neg]
      · exact this
      · simp [hp]

/-- Within one minute bucket, the number of Allowed outcomes still to come
is bounded by what remains of the budget given the bucket's current
count. -/
theorem run_rate_calls_bound (identifier endpoint : String)
    (max_requests window_seconds B : Nat) :
    ∀ (times : List Nat) (rs : RateStore) (c : Nat),
      (∀ t ∈ times, t / 60 * 60 = B) →
      rate_get rs (identifier, endpoint, B) = some c →
      count_allowed
          (run_rate_calls identifier endpoint max_requests window_seconds rs times).1 +
        min c max_requests ≤ max_requests := by
  intro times
  induction times with
  | nil =>
    intro rs c _ _
    simp only [run_rate_calls, count_allowed, List.countP_nil]
    omega
  | cons t ts ih =>
    intro rs c hB hget
    have hBt : t / 60 * 60 = B := hB t (List.mem_cons_self t ts)
    have hBts : ∀ u ∈ ts, u / 60 * 60 = B := fun u hu => hB u (List.mem_cons_of_mem t hu)
    have hstep :
        check_and_increment rs identifier endpoint max_requests window_seconds t =
          (if t < B + window_seconds then
            some (decide (c + 1 ≤ max_requests),
              rate_set rs (identifier, endpoint, B) (c + 1))
          else none) := by
      unfold check_and_increment
      rw [hBt, hget]
    by_cases hw : t < B + window_seconds
    · rw [if_pos hw] at hstep
      rw [run_rate_calls_cons, hstep]
      have hget2 : rate_get (rate_set rs (identifier, endpoint, B) (c + 1))
          (identifier, endpoint, B) = some (c + 1) :=
        rate_get_rate_set_self rs _ c (c + 1) hget
      have ihh := ih (rate_set rs (identifier, endpoint, B) (c + 1)) (c + 1) hBts hget2
      simp only [count_allowed, List.countP_cons] at ihh ⊢
      by_cases hle : c + 1 ≤ max_requests
      · simp only [decide_eq_true hle]
        simp
        omega
      · have : decide (c + 1 ≤ max_requests) = false := decide_eq_false hle
        simp only [this]
        simp
        omega
    · rw [if_neg hw] at hstep
      rw [run_rate_calls_cons, hstep]
      have ihh := ih rs c hBts hget
      simp only [count_allowed, List.countP_cons] at ihh ⊢
      simp
      omega

/-- Claim C7: over any sequence of `check_and_increment` calls whose upserts
fall into the same fresh minute bucket, at most `max_requests` calls return
Allowed (each atomic upsert strictly increases the bucket counter, and only
counter values up to the limit are allowed); and the first call of a new
minute bucket is allowed whenever `max_requests ≥ 1`, regardless of what any
previous bucket's row holds. -/
theorem rate_limiter_bucket_bound_and_reset (identifier endpoint : String)
    (max_requests window_seconds : Nat) :
    (∀ (B : Nat) (times : List Nat) (rs : RateStore),
      (∀ t ∈ times, t / 60 * 60 = B) →
      rate_get rs (identifier, endpoint, B) = none →
      count_allowed
          (run_rate_calls identifier endpoint max_requests window_seconds rs times).1 ≤
        max_requests) ∧
    (∀ (rs : RateStore) (now : Nat),
      1 ≤ max_requests →
      rate_get rs (identifier, endpoint, now / 60 * 60) = none →
      (check_and_increment rs identifier endpoint max_requests window_seconds now).map
        (fun p => p.1) = some true) := by
  constructor
  · intro B times rs hB hfresh
    cases times with
    | nil =>
      simp [run_rate_calls, count_allowed]
    | cons t ts =>
      have hBt : t / 60 * 60 = B := hB t (List.mem_cons_self t ts)
      have hBts : ∀ u ∈ ts, u / 60 * 60 = B := fun u hu => hB u (List.mem_cons_of_mem t hu)
      have hstep :
          check_and_increment rs identifier endpoint max_requests window_seconds t =
            some (decide (1 ≤ max_requests), ((identifier, endpoint, B), 1) :: rs) := by
        unfold check_and_increment
        rw [hBt, hfresh]
      rw [run_rate_calls_cons, hstep]
      have hget2 : rate_get (((identifier, endpoint, B), 1) :: rs)
          (identifier, endpoint, B) = some 1 :=
        rate_get_cons_self rs _ 1
      have ihh := run_rate_calls_bound identifier endpoint max_requests window_seconds B ts
        (((identifier, endpoint, B), 1) :: rs) 1 hBts hget2
      simp only [count_allowed, List.countP_cons] at ihh ⊢
      by_cases hle : 1 ≤ max_requests
      · simp only [decide_eq_true hle]
        simp
        omega
      · have : decide (1 ≤ max_requests) = false := decide_eq_false hle
        simp only [this]
        simp
        omega
  · intro rs now h1 hfresh
    unfold check_and_increment
    rw [hfresh]
    simp [decide_eq_true h1]

/-- Witness for C7: three same-bucket calls against a fresh store stay
within a limit of 10, and after a previous bucket accumulated 99 requests,
the first call of the next minute is still allowed. -/
theorem rate_limiter_bucket_bound_and_reset_witness :
    count_allowed
        (run_rate_calls "203.0.113.7" "session_create" 10 60 [] [0, 5, 59]).1 ≤ 10 ∧
    (check_and_increment [(("203.0.113.7", "session_create", 0), 99)]
        "203.0.113.7" "session_create" 10 60 60).map (fun p => p.1) = some true :=
  ⟨(rate_limiter_bucket_bound_and_reset "203.0.113.7" "session_create" 10 60).1
      0 [0, 5, 59] [] (by decide) rfl,
   (rate_limiter_bucket_bound_and_reset "203.0.113.7" "session_create" 10 60).2
      [(("203.0.113.7", "session_create", 0), 99)] 60 (by decide) (by decide)⟩

/-! ### Claim C8 — the raw-PTY inbound frame dispatch -/

/-- JSON values as produced by the external call
`serde_json::from_str::<Value>`.  The parser below models the standard JSON
grammar restricted to integer numerals and single-character escapes — the
fragment the handler can meaningfully inspect through `get`, `as_array` and
`as_u64`. -/
inductive Json where
  | null
  | bool (b : Bool)
  | num (n : Int)
  | str (s : String)
  | arr (items : List Json)
  | obj (fields : List (String × Json))
deriving Repr

/-- Whitespace skipping of the JSON grammar. -/
def skipWs : List Char → List Char
  | [] => []
  | c :: cs => if c = ' ' || c = '\t' || c = '\n' || c = '\r' then skipWs cs else c :: cs

/-- Translation of a single-character JSON escape. -/
def unescapeChar (c : Char) : Char :=
  if c = 'n' then '\n'
  else if c = 't' then '\t'
  else if c = 'r' then '\r'
  else if c = 'b' then Char.ofNat 8
  else if c = 'f' then Char.ofNat 12
  else c

/-- Body of a JSON string literal, after the opening quote. -/
def parseStringBody : List Char → Option (String × List Char)
  | [] => none
  | c :: cs =>
    if c = '"' then some ("", cs)
    else if c = '\\' then
      match cs with
      | [] => none
      | e :: cs2 =>
        (parseStringBody cs2).map (fun p => (String.mk (unescapeChar e :: p.1.data), p.2))
    else (parseStringBody cs).map (fun p => (String.mk (c :: p.1.data), p.2))

/-- Numeric value of a digit run. -/
def digitsToNat (ds : List Char) : Nat :=
  List.foldl (fun a c => a * 10 + (c.toNat - 48)) 0 ds

/-- An unsigned integer numeral. -/
def parseNumber (cs : List Char) : Option (Nat × List Char) :=
  let ds := List.takeWhile Char.isDigit cs
  if ds.isEmpty then none
  else some (digitsToNat ds, List.dropWhile Char.isDigit cs)

mutual

/-- One JSON value, with a recursion-depth fuel. -/
def parseValue : Nat → List Char → Option (Json × List Char)
  | 0, _ => none
  | fuel + 1, cs =>
    match skipWs cs with
    | 'n' :: 'u' :: 'l' :: 'l' :: rest => some (.null, rest)
    | 't' :: 'r' :: 'u' :: 'e' :: rest => some (.bool true, rest)
    | 'f' :: 'a' :: 'l' :: 's' :: 'e' :: rest => some (.bool false, rest)
    | '"' :: rest => (parseStringBody rest).map (fun p => (.str p.1, p.2))
    | '-' :: rest => (parseNumber rest).map (fun p => (.num (-(p.1 : Int)), p.2))
    | c :: rest =>
      if c = Char.ofNat 123 then
        match skipWs rest with
        | d :: r2 =>
          if d = Char.ofNat 125 then some (.obj [], r2)
          else (parseMembers fuel (d :: r2)).map (fun p => (.obj p.1, p.2))
        | [] => none
      else if c = '[' then
        match skipWs rest with
        | d :: r2 =>
          if d = ']' then some (.arr [], r2)
          else (parseItems fuel (d :: r2)).map (fun p => (.arr p.1, p.2))
        | [] => none
      else if c.isDigit then
        (parseNumber (c :: rest)).map (fun p => (.num (p.1 : Int), p.2))
      else none
    | [] => none

/-- One or more `key : value` members of an object, up to the closing
brace. -/
def parseMembers : Nat → List Char → Option (List (String × Json) × List Char)
  | 0, _ => none
  | fuel + 1, cs =>
    match skipWs cs with
    | '"' :: rest =>
      match parseStringBody rest with
      | none => none
      | some (key, r1) =>
        match skipWs r1 with
        | ':' :: r2 =>
          match parseValue fuel r2 with
          | none => none
          | some (v, r3) =>
            match skipWs r3 with
            | ',' :: r4 => (parseMembers fuel r4).map (fun p => ((key, v) :: p.1, p.2))
            | d :: r4 => if d = Char.ofNat 125 then some ([(key, v)], r4) else none
            | [] => none
        | _ => none
    | _ => none

/-- One or more items of an array, up to the closing bracket. -/
def parseItems : Nat → List Char → Option (List Json × List Char)
  | 0, _ => none
  | fuel + 1, cs =>
    match parseValue fuel cs with
    | none => none
    | some (v, r1) =>
      match skipWs r1 with
      | ',' :: r2 => (parseItems fuel r2).map (fun p => (v :: p.1, p.2))
      | d :: r2 => if d = ']' then some ([v], r2) else none
      | [] => none

end

/-- Behaviour of the external call `serde_json::from_str::<Value>` on the
modelled fragment: one value, with trailing whitespace only. -/
def json_from_str (s : String) : Option Json :=
  match parseValue (s.length + 1) s.data with
  | some (v, rest) => if skipWs rest = [] then some v else none
  | none => none

/-- `Value::get(key)`: field lookup, defined on objects only. -/
def json_get (v : Json) (key : String) : Option Json :=
  match v with
  | .obj fields => (List.find? (fun f => f.1 == key) fields).map (fun f => f.2)
  | _ => none

/-- `Value::as_array`. -/
def json_as_array (v : Json) : Option (List Json) :=
  match v with
  | .arr items => some items
  | _ => none

/-- `Value::as_u64`: defined exactly on non-negative integer numbers. -/
def json_as_u64 (v : Json) : Option Nat :=
  match v with
  | .num n => if 0 ≤ n then some n.toNat else none
  | _ => none

/-- Prefix test on character sequences; `Rust str::starts_with` is exactly
this test on the codepoints of the two strings. -/
def charsPrefixOf : List Char → List Char → Bool
  | [], _ => true
  | _ :: _, [] => false
  | a :: as, b :: bs => a = b && charsPrefixOf as bs

/-- `text.starts_with(marker)` of the handler. -/
def starts_with (t marker : String) : Bool :=
  charsPrefixOf marker.data t.data

/-- Incoming WebSocket messages (axum `ws::Message`); text payloads as
strings, binary payloads as byte lists. -/
inductive WsMessage where
  | text (t : String)
  | binary (b : List Nat)
  | ping
  | pong
  | close
deriving DecidableEq, Repr

/-- Effect of the PTY inbound task on one received frame. -/
inductive InputAction where
  | writeText (t : String)
  | writeBinary (b : List Nat)
  | resizeDispatch (cols rows : Nat)
  | consumed
  | activityOnly
  | closeLoop
deriving DecidableEq, Repr

/-- Resize payload extraction of the inbound task (`noxterm.rs` lines
2124-2131): `serde_json::from_str`, then `.get("resize")`, then
`.as_array()`, then the length-2 test; each element is read with
`as_u64().unwrap_or(default) as u16` (hence the `% 65536`). -/
def resize_payload (t : String) : Option (Nat × Nat) :=
  match json_from_str t with
  | some v =>
    match json_get v "resize" with
    | some rv =>
      match json_as_array rv with
      | some arr =>
        match arr with
        | [a0, a1] =>
          some (((json_as_u64 a0).getD 80) % 65536, ((json_as_u64 a1).getD 24) % 65536)
        | _ => none
      | none => none
    | none => none
  | none => none

/-- Per-frame dispatch of the PTY inbound task (`handle_pty_websocket`,
`noxterm.rs` lines 2119-2199).  A text frame is first tested with
`text.starts_with` against the ten-character marker (open brace followed by
`"resize":`); every frame passing that test is consumed (`continue`)
whether or not it parses — when the resize payload extraction succeeds, the
pair is dispatched to the resize channel.  Every other text frame, and
every binary frame, is written verbatim to the container's stdin and
flushed. -/
def pty_input_frame_action (msg : WsMessage) : InputAction :=
  match msg with
  | .text t =>
    if starts_with t "\x7b\"resize\":" then
      match resize_payload t with
      | some (cols, rows) => .resizeDispatch cols rows
      | none => .consumed
    else .writeText t
  | .binary b => .writeBinary b
  | .ping => .activityOnly
  | .pong => .activityOnly
  | .close => .closeLoop

/-- Claim C8 counterexample.  The frame `\x7b"resize":"x"\x7d` is a text
frame and ***not*** the control frame `\x7b"resize":[cols,rows]\x7d` — it
parses to a JSON object whose "resize" member is the string "x" — so by the
claim it should be written verbatim to stdin.  The code's discriminator is
the ten-character prefix test, so the frame is consumed: neither written to
stdin nor dispatched as a resize. -/
theorem resize_prefixed_frame_not_forwarded :
    pty_input_frame_action (.text "\x7b\"resize\":\"x\"\x7d") = .consumed ∧
    json_from_str "\x7b\"resize\":\"x\"\x7d" = some (.obj [("resize", .str "x")]) ∧
    InputAction.consumed ≠ InputAction.writeText "\x7b\"resize\":\"x\"\x7d" := by
  refine ⟨by decide, rfl, by decide⟩

/-- Claim C8 (amended): binary frames are forwarded verbatim; a text frame
is forwarded verbatim exactly when it does not start with the ten-character
resize marker; a text frame starting with the marker is never written to
stdin — it either dispatches a resize (when its resize payload extraction
succeeds) or is silently dropped. -/
theorem pty_input_verbatim_except_resize_marker :
    (∀ b : List Nat, pty_input_frame_action (.binary b) = .writeBinary b) ∧
    (∀ t : String, starts_with t "\x7b\"resize\":" = false →
      pty_input_frame_action (.text t) = .writeText t) ∧
    (∀ t : String, starts_with t "\x7b\"resize\":" = true →
      (∃ c r, pty_input_frame_action (.text t) = .resizeDispatch c r) ∨
        pty_input_frame_action (.text t) = .consumed) := by
  refine ⟨fun b => rfl, ?_, ?_⟩
  · intro t h
    simp only [pty_input_frame_action, h, Bool.false_eq_true, if_false]
  · intro t h
    simp only [pty_input_frame_action, h, if_true]
    cases hp : resize_payload t with
    | none => right; simp only [hp]
    | some p => exact Or.inl ⟨p.1, p.2, by simp only [hp]⟩

/-- Witness for the amended C8 theorem: an ordinary command line is written
verbatim, and a marker-prefixed frame is never written — here the genuine
resize control frame. -/
theorem pty_input_verbatim_except_resize_marker_witness :
    pty_input_frame_action (.text "ls -la\n") = .writeText "ls -la\n" ∧
    ((∃ c r, pty_input_frame_action (.text "\x7b\"resize\":[100,40]\x7d") = .resizeDispatch c r) ∨
      pty_input_frame_action (.text "\x7b\"resize\":[100,40]\x7d") = .consumed) :=
  ⟨pty_input_verbatim_except_resize_marker.2.1 "ls -la\n" (by decide),
   pty_input_verbatim_except_resize_marker.2.2 "\x7b\"resize\":[100,40]\x7d" (by decide)⟩

end Noxterm
